import Mathlib

/-!
Verification of the crewcrew backend's agent-workflow core against its
specification.  The Python sources under `src/graphs` and `src/routers`
are shallowly embedded as executable Lean definitions: LLM and search
calls become oracle parameters, database rows become structures, and
exceptions become `Except` values.  Definition names follow the Python
names wherever Lean allows.
-/

namespace CrewCrew

/-- Exceptions that the embedded Python code can raise.  Each constructor
carries the message that Python's `str(e)` would produce. -/
inductive PyExc where
  | typeError (msg : String)
  | attributeError (msg : String)
  | valueError (msg : String)
  | keyError (msg : String)
  | jsonDecodeError (msg : String)
  | overflowError (msg : String)
  | other (msg : String)
deriving Repr, DecidableEq

/-- Python `str(e)`: the message carried by the exception. -/
def PyExc.toStr : PyExc → String
  | .typeError m => m
  | .attributeError m => m
  | .valueError m => m
  | .keyError m => m
  | .jsonDecodeError m => m
  | .overflowError m => m
  | .other m => m

/-- Exceptions caught by `except (json.JSONDecodeError, ValueError, KeyError)`
in `parse_evaluation_response` (JSONDecodeError is a ValueError subclass). -/
def PyExc.isCaughtByParse : PyExc → Bool
  | .jsonDecodeError _ => true
  | .valueError _ => true
  | .keyError _ => true
  | _ => false

/-- `true` on `Except.ok`, `false` on `Except.error`. -/
def exceptOk {ε α : Type} : Except ε α → Bool
  | .ok _ => true
  | .error _ => false

/-- ASCII whitespace as matched by Python's `\s` and `str.strip()`
(non-ASCII whitespace is not needed by any input considered here). -/
def pyWhitespace (c : Char) : Bool :=
  c == ' ' || c == '\t' || c == '\n' || c == '\r' || c == '\x0b' || c == '\x0c'

/-- Drop leading whitespace characters. -/
def skipWsL : List Char → List Char
  | [] => []
  | c :: cs => if pyWhitespace c then skipWsL cs else c :: cs

/-- JSON whitespace as accepted by Python's `json` module: only space,
tab, newline and carriage return (stricter than the regex `\s`). -/
def jsonWs (c : Char) : Bool :=
  c == ' ' || c == '\t' || c == '\n' || c == '\r'

/-- Drop leading JSON whitespace. -/
def skipJsonWs : List Char → List Char
  | [] => []
  | c :: cs => if jsonWs c then skipJsonWs cs else c :: cs

/-- Python `str.strip()`: drop whitespace from both ends. -/
def pyTrim (cs : List Char) : List Char :=
  ((skipWsL (skipWsL cs).reverse)).reverse

/-- Does `p` match the front of `l`? -/
def leadMatch : List Char → List Char → Bool
  | [], _ => true
  | _ :: _, [] => false
  | p :: ps, c :: cs => p == c && leadMatch ps cs

/-- Index of the first occurrence of `pat` in `l`, if any. -/
def findSub (pat : List Char) : List Char → Option Nat
  | [] => if leadMatch pat [] then some 0 else none
  | c :: cs =>
    if leadMatch pat (c :: cs) then some 0
    else (findSub pat cs).map (· + 1)

/-- Python `pat in s` substring test. -/
def strContains (s pat : String) : Bool :=
  (findSub pat.toList s.toList).isSome

/-- ASCII decimal digit (code points 48-57). -/
def isDigitChar (c : Char) : Bool := 48 ≤ c.toNat && c.toNat ≤ 57

/-- Accumulate the numeric value of a digit run, most significant first. -/
def natOfDigitsAcc (acc : Nat) : List Char → Nat
  | [] => acc
  | c :: cs => natOfDigitsAcc (10 * acc + (c.toNat - 48)) cs

/-- Numeric value of a digit run. -/
def natOfDigits (ds : List Char) : Nat := natOfDigitsAcc 0 ds

/-- Split off the maximal leading digit run. -/
def takeDigits (cs : List Char) : List Char × List Char :=
  (cs.takeWhile isDigitChar, cs.dropWhile isDigitChar)

/-!
## JSON values and `json.loads`

A small model of the Python `json` module, sufficient for the evaluation
responses handled by the repository.  Numbers keep their truncated
integral value (`int(x)` truncates toward zero), whether the fractional
part is nonzero (for truthiness), and whether the literal was an integer.
Float literals that overflow an IEEE double become `inf` (so `int()` on
them raises OverflowError, as in Python), literals below the smallest
subnormal become 0.0, and the `NaN`/`Infinity`/`-Infinity` constants are
accepted; the rounding of in-range finite doubles is approximated by
exact decimal truncation (a low-order-digit deviation that no exception
path depends on).  `\u` surrogate pairs are not modelled.
-/

inductive Json where
  | null
  | bool (b : Bool)
  | num (trunc : Int) (fracNZ : Bool) (isInt : Bool)
  | inf (neg : Bool)
  | nan
  | str (s : String)
  | arr (xs : List Json)
  | obj (kvs : List (String × Json))

/-- Python type name of a JSON-decoded value. -/
def Json.pyTypeName : Json → String
  | .null => "NoneType"
  | .bool _ => "bool"
  | .num _ _ true => "int"
  | .num _ _ false => "float"
  | .inf _ => "float"
  | .nan => "float"
  | .str _ => "str"
  | .arr _ => "list"
  | .obj _ => "dict"

/-- Python truthiness of a JSON-decoded value. -/
def Json.pyTruthy : Json → Bool
  | .null => false
  | .bool b => b
  | .num t f _ => !(t == 0 && f == false)
  | .inf _ => true
  | .nan => true
  | .str s => !(s == "")
  | .arr xs => !xs.isEmpty
  | .obj kvs => !kvs.isEmpty

/-- Hexadecimal digit value, via code-point arithmetic. -/
def hexVal (c : Char) : Option Nat :=
  let n := c.toNat
  if 48 ≤ n && n ≤ 57 then some (n - 48)
  else if 97 ≤ n && n ≤ 102 then some (n - 87)
  else if 65 ≤ n && n ≤ 70 then some (n - 55)
  else none

/-- Decode one escape character of a JSON string; `none` rejects. -/
def escChar (e : Char) : Option Char :=
  if e == '"' then some '"'
  else if e == '\\' then some '\\'
  else if e == '/' then some '/'
  else if e == 'b' then some '\x08'
  else if e == 'f' then some '\x0c'
  else if e == 'n' then some '\n'
  else if e == 'r' then some '\r'
  else if e == 't' then some '\t'
  else none

/-- Parse a JSON string body (after the opening quote), handling escapes.
Strict mode: unescaped control characters are rejected. -/
def parseStringBody (acc : List Char) : List Char → Except String (String × List Char)
  | [] => .error "Unterminated string"
  | c :: rest =>
    if c == '"' then .ok (String.mk acc.reverse, rest)
    else if c == '\\' then
      match rest with
      | [] => .error "Unterminated string"
      | 'u' :: h1 :: h2 :: h3 :: h4 :: rest2 =>
        match hexVal h1, hexVal h2, hexVal h3, hexVal h4 with
        | some a, some b, some cc, some d =>
          parseStringBody (Char.ofNat (((a * 16 + b) * 16 + cc) * 16 + d) :: acc) rest2
        | _, _, _, _ => .error "Invalid \\uXXXX escape"
      | e :: rest2 =>
        match escChar e with
        | some ch => parseStringBody (ch :: acc) rest2
        | none => .error "Invalid \\escape"
    else if c.toNat < 32 then .error "Invalid control character"
    else parseStringBody (c :: acc) rest

/-- Does the exact decimal value `m * 10^e` round to IEEE-double
infinity?  Overflow starts at 2^1024 - 2^970, the midpoint above the
largest finite double (ties round to even, i.e. up to infinity). -/
def floatOverflow (m : Nat) (e : Int) : Bool :=
  if 0 ≤ e then (2 ^ 1024 - 2 ^ 970) ≤ m * 10 ^ e.toNat
  else (2 ^ 1024 - 2 ^ 970) * 10 ^ (-e).toNat ≤ m

/-- Does the exact decimal value `m * 10^e` round to 0.0?  This happens
at and below 2^-1075, half the smallest subnormal double. -/
def floatUnderflow (m : Nat) (e : Int) : Bool :=
  if 0 ≤ e then m == 0
  else m * 2 ^ 1075 ≤ 10 ^ (-e).toNat

/-- Parse a JSON number (grammar `-?(0|[1-9][0-9]*)(.[0-9]+)?([eE][+-]?[0-9]+)?`),
returning the toward-zero truncated value, whether a nonzero fractional part
exists, and whether the literal is an integer.  Integer literals become exact
Python ints; float literals overflowing a double become `inf` and those below
the subnormal range become 0.0; in-range floats use exact decimal
truncation. -/
def parseNumber (cs : List Char) : Except String (Json × List Char) :=
  let neg := cs.head? == some '-'
  let cs1 := if neg then cs.tail else cs
  match cs1 with
  | [] => .error "Expecting value"
  | c :: _ =>
    if !isDigitChar c then .error "Expecting value"
    else
      -- integer part: a single 0, or a nonzero digit followed by digits
      let (intDs, cs2) :=
        if c == '0' then ([c], cs1.tail)
        else takeDigits cs1
      -- fractional part, only if '.' is followed by a digit
      let (fracDs, cs3) :=
        match cs2 with
        | '.' :: d :: rest =>
          if isDigitChar d then
            let (ds, r) := takeDigits (d :: rest)
            (ds, r)
          else ([], cs2)
        | _ => ([], cs2)
      -- exponent part, only if e/E (with optional sign) is followed by a digit
      let (expNeg, expDs, cs4) :=
        match cs3 with
        | e :: rest =>
          if e == 'e' || e == 'E' then
            match rest with
            | '+' :: d :: r2 =>
              if isDigitChar d then
                let (ds, r) := takeDigits (d :: r2)
                (false, ds, r)
              else (false, [], cs3)
            | '-' :: d :: r2 =>
              if isDigitChar d then
                let (ds, r) := takeDigits (d :: r2)
                (true, ds, r)
              else (false, [], cs3)
            | d :: r2 =>
              if isDigitChar d then
                let (ds, r) := takeDigits (d :: r2)
                (false, ds, r)
              else (false, [], cs3)
            | [] => (false, [], cs3)
          else (false, [], cs3)
        | [] => (false, [], cs3)
      let isInt := fracDs.isEmpty && expDs.isEmpty
      let m : Nat := natOfDigits (intDs ++ fracDs)
      let e : Int := (if expNeg then -(natOfDigits expDs : Int) else (natOfDigits expDs : Int))
        - (fracDs.length : Int)
      if !isInt && floatOverflow m e then .ok (Json.inf neg, cs4)
      else if !isInt && floatUnderflow m e then .ok (Json.num 0 false false, cs4)
      else
        let (t, fNZ) : Nat × Bool :=
          if 0 ≤ e then (m * 10 ^ e.toNat, false)
          else (m / 10 ^ (-e).toNat, decide (m % 10 ^ (-e).toNat ≠ 0))
        let trunc : Int := if neg then -(t : Int) else (t : Int)
        .ok (Json.num trunc fNZ isInt, cs4)

mutual

/-- Parse one JSON value after skipping leading whitespace.  `fuel` bounds the
recursion depth and exceeds it for any input fed with `fuel = length + 2`. -/
def parseValue : Nat → List Char → Except String (Json × List Char)
  | 0, _ => .error "Expecting value"
  | fuel + 1, cs =>
    match skipJsonWs cs with
    | [] => .error "Expecting value"
    | c :: rest =>
      if c == '"' then
        match parseStringBody [] rest with
        | .ok (s, r) => .ok (.str s, r)
        | .error e => .error e
      else if c == '\x7b' then
        match skipJsonWs rest with
        | '\x7d' :: r => .ok (.obj [], r)
        | r2 => parseMembers fuel r2 []
      else if c == '[' then
        match skipJsonWs rest with
        | ']' :: r => .ok (.arr [], r)
        | r2 => parseElems fuel r2 []
      else if leadMatch "true".toList (c :: rest) then .ok (.bool true, (c :: rest).drop 4)
      else if leadMatch "false".toList (c :: rest) then .ok (.bool false, (c :: rest).drop 5)
      else if leadMatch "null".toList (c :: rest) then .ok (.null, (c :: rest).drop 4)
      else if leadMatch "NaN".toList (c :: rest) then .ok (.nan, (c :: rest).drop 3)
      else if leadMatch "Infinity".toList (c :: rest) then
        .ok (.inf false, (c :: rest).drop 8)
      else if leadMatch "-Infinity".toList (c :: rest) then
        .ok (.inf true, (c :: rest).drop 9)
      else if c == '-' || isDigitChar c then parseNumber (c :: rest)
      else .error "Expecting value"

/-- Parse the members of a JSON object (positioned at the first key). -/
def parseMembers : Nat → List Char → List (String × Json) → Except String (Json × List Char)
  | 0, _, _ => .error "Expecting property name"
  | fuel + 1, cs, acc =>
    match skipJsonWs cs with
    | '"' :: rest =>
      match parseStringBody [] rest with
      | .error e => .error e
      | .ok (k, r1) =>
        match skipJsonWs r1 with
        | ':' :: r2 =>
          match parseValue fuel r2 with
          | .error e => .error e
          | .ok (v, r3) =>
            match skipJsonWs r3 with
            | ',' :: r4 => parseMembers fuel r4 (acc ++ [(k, v)])
            | '\x7d' :: r4 => .ok (.obj (acc ++ [(k, v)]), r4)
            | _ => .error "Expecting delimiter"
        | _ => .error "Expecting colon"
    | _ => .error "Expecting property name"

/-- Parse the elements of a JSON array (positioned at the first element). -/
def parseElems : Nat → List Char → List Json → Except String (Json × List Char)
  | 0, _, _ => .error "Expecting value"
  | fuel + 1, cs, acc =>
    match parseValue fuel cs with
    | .error e => .error e
    | .ok (v, r1) =>
      match skipJsonWs r1 with
      | ',' :: r2 => parseElems fuel r2 (acc ++ [v])
      | ']' :: r2 => .ok (.arr (acc ++ [v]), r2)
      | _ => .error "Expecting delimiter"

end

/-- Python `json.loads`: parse one value and require only trailing whitespace.
The only exception `json.loads` raises is `json.JSONDecodeError`. -/
def json_loads (s : String) : Except PyExc Json :=
  let cs := s.toList
  match parseValue (cs.length + 2) cs with
  | .error msg => .error (.jsonDecodeError msg)
  | .ok (v, rest) =>
    if (skipJsonWs rest).isEmpty then .ok v
    else .error (.jsonDecodeError "Extra data")

/-- Python `dict.get` on a JSON object (`json.loads` keeps the last duplicate). -/
def pyDictGet (kvs : List (String × Json)) (k : String) : Option Json :=
  ((kvs.filter (fun kv => kv.1 == k)).getLast?).map (fun kv => kv.2)

/-- Strip one leading sign character, remembering whether it was `-`. -/
def pyIntSign : List Char → Bool × List Char
  | '-' :: rest => (true, rest)
  | '+' :: rest => (false, rest)
  | cs => (false, cs)

/-- Python `int(s)` on a string: strip whitespace, optional sign, decimal
digits (PEP-515 underscores and non-ASCII digits are not modelled). -/
def pyIntOfString (s : String) : Except PyExc Int :=
  let cs := pyTrim s.toList
  let neg := (pyIntSign cs).1
  let cs1 := (pyIntSign cs).2
  if cs1.isEmpty || !(cs1.all isDigitChar) then
    .error (.valueError ("invalid literal for int() with base 10: " ++ s))
  else
    let n := natOfDigits cs1
    .ok (if neg then -(n : Int) else (n : Int))

/-- Python `int(x)` on a JSON-decoded value: numbers truncate toward zero,
booleans map to 0/1, numeric strings convert, everything else raises. -/
def pyInt : Json → Except PyExc Int
  | .num t _ _ => .ok t
  | .inf _ => .error (.overflowError "cannot convert float infinity to integer")
  | .nan => .error (.valueError "cannot convert float NaN to integer")
  | .bool b => .ok (if b then 1 else 0)
  | .str s => pyIntOfString s
  | v => .error (.typeError
      ("int() argument must be a string, a bytes-like object or a real number, not \x27"
        ++ v.pyTypeName ++ "\x27"))

mutual

/-- Python `repr` of a JSON-decoded value (string escaping inside `repr`
and exact float formatting are approximated; no claim depends on them). -/
def pyRepr : Json → String
  | .null => "None"
  | .bool b => if b then "True" else "False"
  | .num t _ true => toString t
  | .num t _ false => toString t ++ ".0"
  | .inf neg => if neg then "-inf" else "inf"
  | .nan => "nan"
  | .str s => "\x27" ++ s ++ "\x27"
  | .arr xs => "[" ++ ", ".intercalate (pyReprList xs) ++ "]"
  | .obj kvs => "\x7b" ++ ", ".intercalate (pyReprMembers kvs) ++ "\x7d"

def pyReprList : List Json → List String
  | [] => []
  | v :: vs => pyRepr v :: pyReprList vs

def pyReprMembers : List (String × Json) → List String
  | [] => []
  | (k, v) :: kvs => ("\x27" ++ k ++ "\x27: " ++ pyRepr v) :: pyReprMembers kvs

end

/-- Python `str(x)` on a JSON-decoded value. -/
def pyStr : Json → String
  | .str s => s
  | v => pyRepr v

/-!
## The regular expressions of `src/graphs/nodes.py`

`re.search(r'```json\s*([\s\S]*?)\s*```', text)` — group(1) is the text
between the first ```json fence and the next ``` fence, trimmed;
`re.search(r'"?score"?\s*[:：]\s*(\d+)', text)` — first occurrence, greedy
digit run; and the critique fallback pattern, with lazy group semantics.
-/

/-- Model of the ```json fence extraction regex. -/
def extractJsonBlock (s : String) : Option String :=
  let cs := s.toList
  match findSub "```json".toList cs with
  | none => none
  | some i =>
    let after := cs.drop (i + 7)
    match findSub "```".toList after with
    | none => none
    | some j => some (String.mk (pyTrim (after.take j)))

/-- Try the score pattern at the current position: optional quote, literal
`score`, optional quote, whitespace, ASCII or full-width colon, whitespace,
then a greedy nonempty digit run whose value is returned. -/
def scoreMatchAt (cs : List Char) : Option Nat :=
  let cs1 := match cs with
    | '"' :: rest => rest
    | _ => cs
  if leadMatch "score".toList cs1 then
    let cs2 := cs1.drop 5
    let cs3 := match cs2 with
      | '"' :: rest => rest
      | _ => cs2
    match skipWsL cs3 with
    | c :: cs4 =>
      if c == ':' || c == '：' then
        let (ds, _) := takeDigits (skipWsL cs4)
        if ds.isEmpty then none else some (natOfDigits ds)
      else none
    | [] => none
  else none

/-- `re.search` scan for the score pattern: leftmost match wins. -/
def findScore : List Char → Option Nat
  | [] => none
  | c :: cs =>
    match scoreMatchAt (c :: cs) with
    | some n => some n
    | none => findScore cs

/-- Is this character one of the quote characters of the critique pattern? -/
def isQuoteChar (c : Char) : Bool := c == '"' || c == '\x27'

/-- After optional whitespace, is the next character `,` or `}`?
(The backtracking of `\s*[,}]` reduces to exactly this test.) -/
def wsComma (cs : List Char) : Bool :=
  match skipWsL cs with
  | c :: _ => c == ',' || c == '\x7d'
  | [] => false

/-- Lazy `(.+?)` matching of the critique group: extend the group one
character at a time until `["\']?\s*[,}]` matches at its end. -/
def critGroupAux (acc : List Char) : List Char → Option (List Char)
  | [] => none
  | c :: cs =>
    let acc2 := c :: acc
    let closes :=
      (match cs with
       | d :: ds => isQuoteChar d && wsComma ds
       | [] => false)
      || wsComma cs
    if closes then some acc2.reverse else critGroupAux acc2 cs

/-- Try the critique pattern at the current position; returns group(1). -/
def critMatchAt (cs : List Char) : Option (List Char) :=
  let cs1 := match cs with
    | '"' :: rest => rest
    | _ => cs
  if leadMatch "critique".toList cs1 then
    let cs2 := cs1.drop 8
    let cs3 := match cs2 with
      | '"' :: rest => rest
      | _ => cs2
    match skipWsL cs3 with
    | c :: cs4 =>
      if c == ':' || c == '：' then
        let cs5 := skipWsL cs4
        match cs5 with
        | q :: rest =>
          if isQuoteChar q then
            match critGroupAux [] rest with
            | some g => some g
            | none => critGroupAux [] cs5
          else critGroupAux [] cs5
        | [] => none
      else none
    | [] => none
  else none

/-- `re.search` scan for the critique pattern: leftmost match wins. -/
def findCritique : List Char → Option (List Char)
  | [] => none
  | c :: cs =>
    match critMatchAt (c :: cs) with
    | some g => some g
    | none => findCritique cs

/-- Fallback extraction used when strict JSON parsing fails
(`nodes.py` lines 443-453): regex score (unclamped) defaulting to 50, and
regex critique defaulting to the first 500 characters of the response. -/
def parseFallback (response_text : String) : Int × String :=
  let score : Int := match findScore response_text.toList with
    | some n => (n : Int)
    | none => 50
  let critique : String := match findCritique response_text.toList with
    | some g => String.mk (pyTrim g)
    | none => String.mk (response_text.toList.take 500)
  (score, critique)

/-- The `json_str` candidate fed to `json.loads`: the ```json block when
one is present, otherwise the whole response text. -/
def jsonCandidate (response_text : String) : String :=
  match extractJsonBlock response_text with
  | some s => s
  | none => response_text

/-- `parse_evaluation_response` (`nodes.py` lines 414-455): extract the
```json block if present, try `json.loads`, read `score` (clamped to
[0,100]) and `critique`; on JSONDecodeError/ValueError/KeyError fall back
to regex extraction; TypeError/AttributeError propagate uncaught. -/
def parse_evaluation_response (response_text : String) : Except PyExc (Int × String) :=
  match json_loads (jsonCandidate response_text) with
  | .ok data =>
    match data with
    | .obj kvs =>
      let scoreRes := match pyDictGet kvs "score" with
        | none => Except.ok (50 : Int)
        | some v => pyInt v
      (match scoreRes with
       | .ok score =>
         let critique := match pyDictGet kvs "critique" with
           | none => "評価コメントが取得できませんでした"
           | some v => pyStr v
         .ok (max 0 (min 100 score), critique)
       | .error e =>
         if e.isCaughtByParse then .ok (parseFallback response_text)
         else .error e)
    | v =>
      -- Python: `data.get(...)` on a non-dict raises AttributeError, which
      -- the except clause does not catch
      .error (.attributeError
        ("\x27" ++ v.pyTypeName ++ "\x27 object has no attribute \x27get\x27"))
  | .error e =>
    if e.isCaughtByParse then .ok (parseFallback response_text)
    else .error e

/-!
## Director workflow state (`src/graphs/state.py`)

The `messages` channel (LangChain message history) carries only audit
data and is not consulted by any routing or node decision, so it is left
out of the embedding.  LLM calls become oracle parameters of the nodes.
-/

structure DirectorState where
  task : String
  crew_name : String
  crew_personality : String
  draft : String
  critique : String
  score : Int
  revision_count : Nat
  max_revisions : Nat
  final_result : Option String
  is_complete : Bool
  requires_approval : Bool
  approval_status : String
  pending_output : Option String
  output_type : String
  human_feedback : Option String
  thread_id : String
deriving Repr, DecidableEq

/-- `create_initial_state` (`state.py` lines 68-115). -/
def create_initial_state (task crew_name crew_personality : String)
    (max_revisions : Nat) (requires_approval : Bool) (output_type : String)
    (thread_id : String) : DirectorState :=
  { task := task
    crew_name := crew_name
    crew_personality := crew_personality
    draft := ""
    critique := ""
    score := 0
    revision_count := 0
    max_revisions := max_revisions
    final_result := none
    is_complete := false
    requires_approval := requires_approval
    approval_status := "none"
    pending_output := none
    output_type := output_type
    human_feedback := none
    thread_id := thread_id }

/-- Python truthiness of an optional string (`None` and `""` are falsy). -/
def pyTruthyOptStr : Option String → Bool
  | none => false
  | some s => !(s == "")

/-- Python `a or b` where `a` is an optional string and `b` a string. -/
def pyOrStr (a : Option String) (b : String) : String :=
  match a with
  | some s => if s == "" then b else s
  | none => b

/-- Python `a or b or c` over two optional strings and a string. -/
def pyOrStr3 (a b : Option String) (c : String) : String :=
  match a with
  | some s => if s == "" then pyOrStr b c else s
  | none => pyOrStr b c

/-!
## Generator node (`src/graphs/nodes.py` lines 200-291)

The LLM is an oracle mapping the attempt index to the call's outcome.
The backoff sleeps are real-time behaviour outside the embedding; the
retry structure (attempt count and error classification) is modelled.
-/

/-- Partial state update returned by a successful Generator run. -/
structure GenUpdate where
  draft : String
  revision_count : Nat
deriving Repr, DecidableEq

/-- Error classification of the retry loop: only these substrings of
`str(e)` are retried (`nodes.py` line 285). -/
def isThrottling (e : PyExc) : Bool :=
  strContains e.toStr "ThrottlingException" || strContains e.toStr "Too many requests"

/-- The `for attempt in range(max_retries)` loop of `generator_node`:
`remaining` counts the attempts left; a non-throttling error re-raises
immediately, and an exhausted loop re-raises the last error. -/
def generator_retry (state : DirectorState) (llm : Nat → Except PyExc String) :
    Nat → Nat → Option PyExc → Except PyExc GenUpdate
  | _, 0, last_error =>
    -- `raise last_error` after the loop; with max_retries = 3 at least one
    -- attempt always ran, so `last_error` is set on this path
    .error (match last_error with
            | some e => e
            | none => PyExc.other "no attempt")
  | attempt, remaining + 1, _ =>
    match llm attempt with
    | .ok draft => .ok { draft := draft, revision_count := state.revision_count + 1 }
    | .error e =>
      if isThrottling e then generator_retry state llm (attempt + 1) remaining (some e)
      else .error e

/-- `generator_node`: up to `max_retries = 3` attempts. -/
def generator_node (state : DirectorState) (llm : Nat → Except PyExc String) :
    Except PyExc GenUpdate :=
  generator_retry state llm 0 3 none

/-- Merge a Generator update into the state (LangGraph partial-state merge). -/
def apply_generator (s : DirectorState) (u : GenUpdate) : DirectorState :=
  { s with draft := u.draft, revision_count := u.revision_count }

/-!
## Reflector node (`src/graphs/nodes.py` lines 293-411)
-/

/-- The body of the Reflector's `try` block: the LLM call followed by
`parse_evaluation_response`; an error is anything the `except` catches. -/
def reflector_eval (llm : Except PyExc String) : Except PyExc (Int × String) :=
  match llm with
  | .ok response_text => parse_evaluation_response response_text
  | .error e => .error e

/-- `reflector_node`, with the partial update merged into the state.
The skip branch handles a state already marked complete; the error branch
implements the `except` clause that delivers the current draft. -/
def reflector_node (state : DirectorState) (llm : Except PyExc String) : DirectorState :=
  if state.is_complete then
    { state with
      critique := "Generatorでエラーが発生したため評価をスキップしました"
      is_complete := true
      final_result := some state.draft }
  else
    match reflector_eval llm with
    | .ok (score, critique) =>
      let is_complete : Bool :=
        decide (70 ≤ score) || decide (state.max_revisions ≤ state.revision_count)
      { state with
        score := score
        critique := critique
        is_complete := is_complete
        final_result := if is_complete then some state.draft else none }
    | .error e =>
      { state with
        score := 50
        critique := "評価中にエラーが発生しました: " ++ e.toStr
        is_complete := true
        final_result := some state.draft }

/-- `should_continue` (`workflow.py` lines 28-56): route after the Reflector. -/
def should_continue (state : DirectorState) : String :=
  if state.is_complete then "end"
  else if decide (70 ≤ state.score) then "end"
  else if decide (state.max_revisions ≤ state.revision_count) then "end"
  else "generator"

/-- The generator→reflector loop of the Director graph, with one oracle
pair per round (`gen` is the per-attempt LLM oracle of the Generator,
`evals` the Reflector's response, both indexed by the revision count).
`fuel` bounds the rounds; `max_revisions` rounds always suffice because
the Reflector completes once the revision cap is reached. -/
def director_loop : Nat → DirectorState → (Nat → Nat → Except PyExc String) →
    (Nat → Except PyExc String) → Except PyExc DirectorState
  | 0, s, _, _ => .ok s
  | fuel + 1, s, gen, evals =>
    match generator_node s (gen s.revision_count) with
    | .error e => .error e
    | .ok u =>
      let g := apply_generator s u
      let r := reflector_node g (evals g.revision_count)
      if should_continue r == "generator" then director_loop fuel r gen evals
      else .ok r

/-!
## Human review and output creation (`src/graphs/nodes.py` lines 464-560,
`src/graphs/workflow.py` lines 58-100)

These nodes return partial updates whose raw dictionaries are observable
by `resume_workflow_with_approval`, so the partial is modelled explicitly
(a `none` field means the key is absent from the returned dict).
-/

structure NodeUpdate where
  approval_status : Option String
  pending_output : Option String
  is_complete : Option Bool
  final_result : Option String
deriving Repr, DecidableEq

/-- The empty partial update (`return {}`). -/
def NodeUpdate.empty : NodeUpdate :=
  { approval_status := none, pending_output := none, is_complete := none, final_result := none }

/-- LangGraph merge of a partial update into the state. -/
def applyUpdate (s : DirectorState) (p : NodeUpdate) : DirectorState :=
  { s with
    approval_status := p.approval_status.getD s.approval_status
    pending_output := match p.pending_output with
      | some v => some v
      | none => s.pending_output
    is_complete := p.is_complete.getD s.is_complete
    final_result := match p.final_result with
      | some v => some v
      | none => s.final_result }

/-- `human_review_node` (`nodes.py` lines 464-517). -/
def human_review_node (state : DirectorState) : NodeUpdate :=
  if !state.requires_approval then
    { NodeUpdate.empty with
      approval_status := some "approved"
      pending_output := some (pyOrStr state.final_result state.draft) }
  else if state.approval_status == "approved" then
    NodeUpdate.empty
  else if state.approval_status == "rejected" then
    { NodeUpdate.empty with is_complete := some true }
  else if state.approval_status == "modified" && pyTruthyOptStr state.human_feedback then
    -- the partial sets pending_output to state["human_feedback"]
    { NodeUpdate.empty with
      pending_output := state.human_feedback
      approval_status := some "approved" }
  else
    { NodeUpdate.empty with
      approval_status := some "pending"
      pending_output := some (pyOrStr state.final_result state.draft) }

/-- `should_create_output` (`workflow.py` lines 77-100). -/
def should_create_output (state : DirectorState) : String :=
  if state.approval_status == "approved" then "output_creation"
  else if state.approval_status == "rejected" then "end"
  else if state.approval_status == "pending" then "end"
  else "end"

/-- `output_creation_node` (`nodes.py` lines 521-560).  The two approved
branches of the source return identical dictionaries (they differ only in
logging), mirrored here by the inner `if`. -/
def output_creation_node (state : DirectorState) : NodeUpdate :=
  if !(state.approval_status == "approved") then
    { NodeUpdate.empty with is_complete := some true }
  else
    let pending_output := pyOrStr3 state.pending_output state.final_result state.draft
    if state.output_type == "none" then
      { NodeUpdate.empty with is_complete := some true, final_result := some pending_output }
    else
      { NodeUpdate.empty with is_complete := some true, final_result := some pending_output }

/-!
## Resuming a parked workflow (`src/graphs/workflow.py` lines 650-728)

A run parked by `interrupt_before=["human_review"]` resumes at the
`human_review` node: `update_state` merges the reviewer's decision into
the checkpoint, the engine then executes `human_review` and, when routed
there, `output_creation`.  `final_state` in the source is the *partial
dictionary of the last executed node*, which is what the returned
`final_result`/`score`/`approval_status`/`output_type` are read from.
-/

structure ResumeResult where
  success : Bool
  status : String
  final_result : String
  score : Int
  approval_status : String
  output_type : String
deriving Repr, DecidableEq

/-- `resume_workflow_with_approval`: `checkpoint` is the parked state
(the graph stopped just before `human_review`).  Engine faults (missing
checkpoint, stream errors) are outside the model, so `success` is true. -/
def resume_workflow_with_approval (checkpoint : DirectorState)
    (approval_status : String) (human_feedback modified_output : Option String) :
    ResumeResult :=
  -- update_state: merge the decision into the checkpoint
  let s0 : DirectorState :=
    { checkpoint with
      approval_status := approval_status
      human_feedback := if pyTruthyOptStr human_feedback then human_feedback
                        else checkpoint.human_feedback
      pending_output := if pyTruthyOptStr modified_output then modified_output
                        else checkpoint.pending_output }
  -- resume: run human_review, route, possibly run output_creation
  let p1 := human_review_node s0
  let s1 := applyUpdate s0 p1
  let last : NodeUpdate :=
    if should_create_output s1 == "output_creation" then output_creation_node s1
    else p1
  let is_complete := last.is_complete.getD false
  { success := true
    status := if is_complete then "completed" else "awaiting_approval"
    -- final_state.get("final_result") or .get("pending_output") or .get("draft", "");
    -- the node partials never carry a "draft" key
    final_result := pyOrStr3 last.final_result last.pending_output ""
    -- the node partials never carry "score"/"approval_status"/"output_type" keys
    score := 0
    approval_status := last.approval_status.getD "none"
    output_type := "none" }

/-!
## Approval lifecycle endpoints (`src/routers/approval.py`)

An `ApprovalRequest` database row and the three reviewer operations.
Each operation returns the HTTP outcome paired with the stored row after
the call (unchanged when the operation is rejected).  The 404 branch for
an unknown id is outside the model: the row is given.  `checkpoint` is
the parked workflow state for non-director threads.
-/

structure ApprovalRequest where
  id : Nat
  thread_id : String
  output_type : String
  pending_output : String
  crew_name : String
  task_summary : String
  status : String
  human_feedback : Option String
  modified_output : Option String
  reviewed : Bool
deriving Repr, DecidableEq

structure HTTPError where
  status_code : Nat
  detail : String
deriving Repr, DecidableEq

structure ApprovalActionResponse where
  success : Bool
  status : String
  final_result : Option String
  output_type : Option String
  feedback : Option String
deriving Repr, DecidableEq

/-- Python `str.startswith`. -/
def strStartsWith (s pat : String) : Bool :=
  leadMatch pat.toList s.toList

/-- `approve_request` (`approval.py` lines 221-284). -/
def approve_request (approval : ApprovalRequest) (checkpoint : DirectorState) :
    Except HTTPError ApprovalActionResponse × ApprovalRequest :=
  if approval.status != "pending" then
    (.error { status_code := 400, detail := "Request already " ++ approval.status }, approval)
  else
    let is_director_mode := strStartsWith approval.thread_id "director-v2-"
    let (final_result, output_type) :=
      if is_director_mode then (approval.pending_output, approval.output_type)
      else
        let result := resume_workflow_with_approval checkpoint "approved" none none
        (result.final_result, result.output_type)
    let approval2 := { approval with status := "approved", reviewed := true }
    (.ok { success := true, status := "approved", final_result := some final_result,
           output_type := some output_type, feedback := none }, approval2)

/-- `reject_request` (`approval.py` lines 286-340). -/
def reject_request (approval : ApprovalRequest) (checkpoint : DirectorState)
    (feedback : Option String) :
    Except HTTPError ApprovalActionResponse × ApprovalRequest :=
  if approval.status != "pending" then
    (.error { status_code := 400, detail := "Request already " ++ approval.status }, approval)
  else
    -- non-director threads resume the workflow in the rejected state; the
    -- resume result is not used by the endpoint
    let _ := resume_workflow_with_approval checkpoint "rejected" feedback none
    let approval2 := { approval with
      status := "rejected", human_feedback := feedback, reviewed := true }
    (.ok { success := true, status := "rejected", final_result := none,
           output_type := none, feedback := feedback }, approval2)

/-- `modify_request` (`approval.py` lines 341-407). -/
def modify_request (approval : ApprovalRequest) (checkpoint : DirectorState)
    (feedback modified_output : Option String) :
    Except HTTPError ApprovalActionResponse × ApprovalRequest :=
  if approval.status != "pending" then
    (.error { status_code := 400, detail := "Request already " ++ approval.status }, approval)
  else if !pyTruthyOptStr modified_output then
    (.error { status_code := 400, detail := "Modified output is required" }, approval)
  else
    let is_director_mode := strStartsWith approval.thread_id "director-v2-"
    let (final_result, output_type) :=
      if is_director_mode then
        (match modified_output with
         | some m => m
         | none => "", approval.output_type)
      else
        let result := resume_workflow_with_approval checkpoint "modified"
          feedback modified_output
        (result.final_result, result.output_type)
    let approval2 := { approval with
      status := "modified", human_feedback := feedback,
      modified_output := modified_output, reviewed := true }
    (.ok { success := true, status := "modified", final_result := some final_result,
           output_type := some output_type, feedback := none }, approval2)

/-!
## Background executions (`src/models.py` lines 316-336,
`src/routers/background.py`)

The `_cancelled_executions` in-memory set is modelled as a list of ids;
a `BackgroundExecution` row keeps the fields the claims observe.
-/

namespace ExecutionStatus

def PENDING : String := "pending"
def RUNNING : String := "running"
def CANCELLING : String := "cancelling"
def CANCELLED : String := "cancelled"
def COMPLETED : String := "completed"
def FAILED : String := "failed"

def CANCELLABLE : List String := [PENDING, RUNNING]

def TERMINAL : List String := [COMPLETED, FAILED, CANCELLED]

end ExecutionStatus

structure BackgroundExecution where
  id : Nat
  user_id : Nat
  status : String
  progress_message : Option String
  result : Option String
  error_message : Option String
  completed_at_set : Bool
deriving Repr, DecidableEq

/-- `is_cancelled` (`background.py` line 36). -/
def is_cancelled (execution_id : Nat) (cancelledSet : List Nat) : Bool :=
  cancelledSet.contains execution_id

/-- `mark_cancelled` (`background.py` line 41). -/
def mark_cancelled (execution_id : Nat) (cancelledSet : List Nat) : List Nat :=
  if cancelledSet.contains execution_id then cancelledSet else execution_id :: cancelledSet

/-- `clear_cancelled` (`background.py` line 47). -/
def clear_cancelled (execution_id : Nat) (cancelledSet : List Nat) : List Nat :=
  cancelledSet.filter (fun i => i != execution_id)

/-- `cancel_background_execution` (`background.py` lines 661-707): returns
the HTTP outcome (message on success), the stored row after the call, and
the updated cancellation set.  The notification side effect is omitted. -/
def cancel_background_execution (execution : BackgroundExecution)
    (cancelledSet : List Nat) :
    Except HTTPError String × BackgroundExecution × List Nat :=
  if ExecutionStatus.TERMINAL.contains execution.status then
    (.error { status_code := 400,
              detail := "Cannot cancel execution with status: " ++ execution.status },
     execution, cancelledSet)
  else if execution.status == ExecutionStatus.CANCELLING then
    (.ok "Cancellation already in progress", execution, cancelledSet)
  else
    let set2 := mark_cancelled execution.id cancelledSet
    let execution2 := { execution with
      status := ExecutionStatus.CANCELLING
      progress_message := some "キャンセル処理中..." }
    (.ok "Cancellation requested", execution2, set2)

/-- The cancellation check at the start of the background work unit
(`execute_task_background`, `background.py` lines 148-155): when the
signal is set the row becomes cancelled and the unit returns (`some`),
otherwise the unit proceeds (`none`). -/
def background_cancel_check (execution : BackgroundExecution)
    (cancelledSet : List Nat) : Option (BackgroundExecution × List Nat) :=
  if is_cancelled execution.id cancelledSet then
    some ({ execution with
              status := ExecutionStatus.CANCELLED
              progress_message := some "キャンセルされました"
              completed_at_set := true },
          clear_cancelled execution.id cancelledSet)
  else none

/-!
## Research workflow (`src/graphs/research_graph.py`)

The Tavily search client becomes an oracle from the raw `next_query`
JSON value to a result list (`search_with_tavily` itself returns `[]` on
failure, so the oracle is total); the LLM is an `Except` oracle.
-/

/-- `MAX_LOOPS` (`research_graph.py` line 35). -/
def MAX_LOOPS : Nat := 3

structure SearchResult where
  content : String
  url : String
  title : String
deriving Repr, DecidableEq

structure ResearchState where
  question : String
  search_queries : List String
  gathered_info : List SearchResult
  loop_count : Nat
  is_sufficient : Bool
  final_answer : String
deriving Repr, DecidableEq

/-- `create_initial_state` (`research_graph.py` lines 53-62). -/
def create_initial_research_state (question : String) : ResearchState :=
  { question := question
    search_queries := []
    gathered_info := []
    loop_count := 0
    is_sufficient := false
    final_answer := "" }

/-- The `try` body of `researcher_node` up to the branch decision: LLM
call, ```json block extraction, `json.loads`, and the two `data.get`
reads.  Every raised exception lands in the node's `except Exception`. -/
def researcher_parse (llm : Except PyExc String) : Except PyExc (Json × Json) :=
  match llm with
  | .error e => .error e
  | .ok response_text =>
    match json_loads (jsonCandidate response_text) with
    | .error e => .error e
    | .ok (.obj kvs) =>
      .ok ((pyDictGet kvs "is_sufficient").getD (Json.bool false),
           (pyDictGet kvs "next_query").getD (Json.str ""))
    | .ok v =>
      .error (.attributeError
        ("\x27" ++ v.pyTypeName ++ "\x27 object has no attribute \x27get\x27"))

/-- `researcher_node` (`research_graph.py` lines 139-267), with the
partial update merged into the state.  `search` is the Tavily oracle;
non-string queries are recorded via their `str` form. -/
def researcher_node (state : ResearchState) (llm : Except PyExc String)
    (search : Json → List SearchResult) : ResearchState :=
  match researcher_parse llm with
  | .ok (is_sufficient, next_query) =>
    if is_sufficient.pyTruthy then
      { state with is_sufficient := true, loop_count := state.loop_count + 1 }
    else if next_query.pyTruthy then
      let search_results := search next_query
      { state with
        search_queries := state.search_queries ++ [pyStr next_query]
        gathered_info := state.gathered_info ++ search_results
        loop_count := state.loop_count + 1
        is_sufficient := false }
    else
      -- no query proposed: treat the information as sufficient
      { state with is_sufficient := true, loop_count := state.loop_count + 1 }
  | .error _ =>
    -- `except Exception`: keep the gathered evidence and stop searching
    { state with
      is_sufficient := true
      loop_count := state.loop_count + 1
      search_queries := state.search_queries
      gathered_info := state.gathered_info }

/-- `writer_node` (`research_graph.py` lines 270-341), with the update
merged into the state. -/
def writer_node (state : ResearchState) (llm : Except PyExc String) : ResearchState :=
  match llm with
  | .ok final_answer => { state with final_answer := final_answer }
  | .error e =>
    { state with final_answer := "回答の生成中にエラーが発生しました: " ++ e.toStr }

/-- `should_continue` of the research graph (`research_graph.py`
lines 348-361). -/
def research_should_continue (state : ResearchState) : String :=
  if state.is_sufficient then "writer"
  else if decide (MAX_LOOPS ≤ state.loop_count) then "writer"
  else "researcher"

/-- The researcher loop of the research graph, with per-round oracles
indexed by the loop count.  `fuel = MAX_LOOPS` suffices from the initial
state because every researcher invocation increments `loop_count`. -/
def research_loop : Nat → ResearchState → (Nat → Except PyExc String) →
    (Nat → Json → List SearchResult) → ResearchState
  | 0, s, _, _ => s
  | fuel + 1, s, llm, search =>
    let s2 := researcher_node s (llm s.loop_count) (search s.loop_count)
    if research_should_continue s2 == "researcher" then research_loop fuel s2 llm search
    else s2

/-- A full research run: the loop followed by the writer
(`run_deep_research`, `research_graph.py` lines 406-470). -/
def run_deep_research (question : String) (llm : Nat → Except PyExc String)
    (search : Nat → Json → List SearchResult) (writerLlm : Except PyExc String) :
    ResearchState :=
  writer_node (research_loop MAX_LOOPS (create_initial_research_state question) llm search)
    writerLlm

/-!
## Specification-side predicates and concrete scenarios

`scoreFieldCovered`/`parseTotalDomain` state, following the sources'
exception flow, on which inputs `parse_evaluation_response` returns
instead of raising; they are compared against the embedding in C9.
The concrete states below instantiate the scenarios named by the claims.
-/

/-- Score-field values the parser survives: an absent field, a finite
number, a boolean, a string (a non-numeric string falls back), or NaN
(`int(nan)` raises a caught ValueError); an infinite float makes `int()`
raise an uncaught OverflowError, and `null`, arrays and objects an
uncaught TypeError. -/
def scoreFieldCovered : Option Json → Bool
  | none => true
  | some (.num _ _ _) => true
  | some (.bool _) => true
  | some (.str _) => true
  | some .nan => true
  | some (.inf _) => false
  | some .null => false
  | some (.arr _) => false
  | some (.obj _) => false

/-- The inputs on which `parse_evaluation_response` returns a pair: the
strict JSON parse fails (the fallback is total), or it yields an object
whose `score` field is covered.  A successful parse of a non-object, or
of an object with a `null`/array/object score, raises. -/
def parseTotalDomain (text : String) : Bool :=
  match json_loads (jsonCandidate text) with
  | .error _ => true
  | .ok (.obj kvs) => scoreFieldCovered (pyDictGet kvs "score")
  | .ok _ => false

/-- A freshly started Director run (used by witnesses). -/
def witnessStart : DirectorState :=
  create_initial_state "task" "フレイミー" "hot" 3 false "none" "thread-1"

/-- A Reflector response carrying score 40. -/
def evalScore40 : Except PyExc String := .ok "\x7b\"score\": 40\x7d"

/-- C1's capped run: max_revisions 3, every draft succeeds, every
evaluation scores 40 (below the passing threshold). -/
def c1CappedRun : Except PyExc DirectorState :=
  director_loop 3 witnessStart (fun _ _ => .ok "D") (fun _ => evalScore40)

/-- A workflow (non-director-mode) run parked at `human_review` with
draft "D" delivered by the Reflector. -/
def parkedCheckpoint : DirectorState :=
  { witnessStart with
    draft := "D", critique := "ok", score := 85, revision_count := 1,
    final_result := some "D", is_complete := true, requires_approval := true,
    output_type := "slides", thread_id := "wf-1" }

/-- The ApprovalRequest row created for `parkedCheckpoint`. -/
def pendingApproval : ApprovalRequest :=
  { id := 1, thread_id := "wf-1", output_type := "slides", pending_output := "D",
    crew_name := "フレイミー", task_summary := "task", status := "pending",
    human_feedback := none, modified_output := none, reviewed := false }

/-- A pending background execution with no result or error. -/
def pendingExecution : BackgroundExecution :=
  { id := 7, user_id := 1, status := "pending", progress_message := none,
    result := none, error_message := none, completed_at_set := false }

/-- A Researcher response that never signals sufficiency. -/
def researchMore : Except PyExc String :=
  .ok "\x7b\"is_sufficient\": false, \"next_query\": \"q\"\x7d"

/-- C8's research run: the Researcher never signals sufficiency, the
search always returns one result, the Writer answers "ANS". -/
def c8Run : ResearchState :=
  run_deep_research "Q" (fun _ => researchMore)
    (fun _ _ => [{ content := "c", url := "u", title := "t" }]) (.ok "ANS")

/-!
## Helper lemmas
-/

/-- `json.loads` fails only with a JSONDecodeError, which the parse
fallback catches. -/
theorem json_loads_error_caught (s : String) (e : PyExc)
    (h : json_loads s = .error e) : e.isCaughtByParse = true := by
  unfold json_loads at h
  dsimp only at h
  split at h
  · cases h
    rfl
  · split at h
    · cases h
    · cases h
      rfl

/-- `int()` on a string fails only with a ValueError, which the parse
fallback catches. -/
theorem pyIntOfString_error_caught (s : String) (e : PyExc)
    (h : pyIntOfString s = .error e) : e.isCaughtByParse = true := by
  unfold pyIntOfString at h
  dsimp only at h
  split at h
  · cases h
    rfl
  · cases h

/-- The regex fallback never produces a negative score: the digit run is
a natural number and the default is 50. -/
theorem parseFallback_score_nonneg (t : String) : 0 ≤ (parseFallback t).1 := by
  unfold parseFallback
  dsimp only
  split
  · exact Int.natCast_nonneg _
  · decide

/-!
## Claims
-/

/-- C1: in the Reflector's evaluation path the returned `is_complete`
flag is true iff the parsed score is at least 70 or the revision count
has reached `max_revisions`; and with `max_revisions = 3`, a run whose
successive scores are all 40 (below 70) still completes with
`revision_count = 3` under the wired routing. -/
theorem claim_C1 :
    (∀ (s : DirectorState) (llm : Except PyExc String) (score : Int) (critique : String),
      s.is_complete = false →
      reflector_eval llm = .ok (score, critique) →
      ((reflector_node s llm).is_complete = true ↔
        (70 ≤ score ∨ s.max_revisions ≤ s.revision_count)))
    ∧ c1CappedRun.map (fun s => (s.is_complete, s.revision_count, s.score))
        = .ok (true, 3, 40) := by
  constructor
  · intro s llm score critique hc hev
    simp [reflector_node, hc, hev]
  · rfl

/-- C1 witness: a fresh state evaluated with score 80 at revision 0 is
complete because the score passes. -/
theorem claim_C1_witness :
    (reflector_node witnessStart (.ok "\x7b\"score\": 80\x7d")).is_complete = true ↔
      ((70 : Int) ≤ 80 ∨ witnessStart.max_revisions ≤ witnessStart.revision_count) :=
  claim_C1.1 witnessStart (.ok "\x7b\"score\": 80\x7d") 80
    "評価コメントが取得できませんでした" rfl rfl

/-- C4: each approval operation is single-shot — on a request whose
status is not `pending`, approve, reject and modify all fail with HTTP
400 and leave the stored request unchanged. -/
theorem claim_C4 :
    ∀ (a : ApprovalRequest) (cp : DirectorState) (fb mo : Option String),
      (a.status != "pending") = true →
      approve_request a cp =
        (.error { status_code := 400, detail := "Request already " ++ a.status }, a)
      ∧ reject_request a cp fb =
        (.error { status_code := 400, detail := "Request already " ++ a.status }, a)
      ∧ modify_request a cp fb mo =
        (.error { status_code := 400, detail := "Request already " ++ a.status }, a) := by
  intro a cp fb mo h
  refine ⟨?_, ?_, ?_⟩
  · simp [approve_request, h]
  · simp [reject_request, h]
  · simp [modify_request, h]

/-- C4 witness: a second approve/reject/modify on an already-approved
request is rejected with HTTP 400 and the row is unchanged. -/
theorem claim_C4_witness :
    approve_request { pendingApproval with status := "approved" } parkedCheckpoint =
      (.error { status_code := 400, detail := "Request already approved" },
       { pendingApproval with status := "approved" })
    ∧ reject_request { pendingApproval with status := "approved" } parkedCheckpoint
        (some "no") =
      (.error { status_code := 400, detail := "Request already approved" },
       { pendingApproval with status := "approved" })
    ∧ modify_request { pendingApproval with status := "approved" } parkedCheckpoint
        (some "no") (some "X") =
      (.error { status_code := 400, detail := "Request already approved" },
       { pendingApproval with status := "approved" }) :=
  claim_C4 { pendingApproval with status := "approved" } parkedCheckpoint
    (some "no") (some "X") rfl

/-- C6: whenever the Reflector's evaluation raises (LLM call failure or
an uncaught parse exception), the node does not re-raise: it returns
score 50, the diagnostic critique, `is_complete = true`, and the current
draft as `final_result`. -/
theorem claim_C6 :
    ∀ (s : DirectorState) (llm : Except PyExc String) (e : PyExc),
      s.is_complete = false →
      reflector_eval llm = .error e →
      reflector_node s llm =
        { s with
          score := 50
          critique := "評価中にエラーが発生しました: " ++ e.toStr
          is_complete := true
          final_result := some s.draft } := by
  intro s llm e hc hev
  simp [reflector_node, hc, hev]

/-- C6 witness: a failed LLM call on a fresh state yields the diagnostic
completion carrying the (empty) current draft. -/
theorem claim_C6_witness :
    reflector_node witnessStart (.error (.other "boom")) =
      { witnessStart with
        score := 50
        critique := "評価中にエラーが発生しました: boom"
        is_complete := true
        final_result := some witnessStart.draft } :=
  claim_C6 witnessStart (.error (.other "boom")) (.other "boom") rfl rfl

/-- C10: whenever the Researcher's LLM call or response parse raises (a
failed call, malformed JSON, or a non-dict response — exactly the cases
in which `researcher_parse` errors), the node returns
`is_sufficient = true` with the loop count incremented and the gathered
queries and evidence untouched, and the router then sends the run to the
Writer. -/
theorem claim_C10 :
    ∀ (s : ResearchState) (llm : Except PyExc String) (e : PyExc)
      (search : Json → List SearchResult),
      researcher_parse llm = .error e →
      researcher_node s llm search =
        { s with is_sufficient := true, loop_count := s.loop_count + 1 }
      ∧ research_should_continue (researcher_node s llm search) = "writer" := by
  intro s llm e search hp
  have h1 : researcher_node s llm search =
      { s with is_sufficient := true, loop_count := s.loop_count + 1 } := by
    unfold researcher_node
    rw [hp]
  refine ⟨h1, ?_⟩
  rw [h1]
  rfl

/-- C10 witness: a successful LLM call whose response is not JSON takes
the same except branch — a parse failure, not only a failed call, routes
to the Writer with the state preserved. -/
theorem claim_C10_witness :
    researcher_node (create_initial_research_state "Q") (.ok "not json") (fun _ => []) =
      { create_initial_research_state "Q" with
        is_sufficient := true
        loop_count := (create_initial_research_state "Q").loop_count + 1 }
    ∧ research_should_continue
        (researcher_node (create_initial_research_state "Q") (.ok "not json")
          (fun _ => [])) = "writer" :=
  claim_C10 (create_initial_research_state "Q") (.ok "not json")
    (.jsonDecodeError "Expecting value") (fun _ => []) rfl

/-- C2 counterexample: on the malformed response "score: 150" the regex
fallback returns the extracted score 150 unclamped — the parser's result
is not confined to [0,100]. -/
theorem claim_C2_counterexample :
    parse_evaluation_response "score: 150" = .ok (150, "score: 150")
    ∧ ¬ (150 : Int) ≤ 100 := by
  exact ⟨rfl, by decide⟩

/-- C2 (amended): every score the parser returns is nonnegative; the
strict JSON path clamps out-of-range numbers (150 → 100, -5 → 0) and a
non-numeric score defaults to 50, but the regex fallback returns the
extracted digit run unclamped, so malformed text can yield scores above
100. -/
theorem claim_C2 :
    (∀ (text : String) (score : Int) (critique : String),
      parse_evaluation_response text = .ok (score, critique) → 0 ≤ score)
    ∧ parse_evaluation_response "\x7b\"score\": 150\x7d"
        = .ok (100, "評価コメントが取得できませんでした")
    ∧ parse_evaluation_response "\x7b\"score\": -5\x7d"
        = .ok (0, "評価コメントが取得できませんでした")
    ∧ parse_evaluation_response "\x7b\"score\": \"abc\"\x7d"
        = .ok (50, "\x7b\"score\": \"abc\"\x7d") := by
  refine ⟨?_, rfl, rfl, rfl⟩
  intro text score critique h
  unfold parse_evaluation_response at h
  dsimp only at h
  split at h
  case h_2 e =>
    split at h
    · cases h
      exact parseFallback_score_nonneg text
    · cases h
  case h_1 data =>
    split at h
    case h_2 => cases h
    case h_1 kvs =>
      split at h
      case h_1 score0 =>
        cases h
        exact le_max_left 0 _
      case h_2 e =>
        split at h
        · cases h
          exact parseFallback_score_nonneg text
        · cases h

/-- C2 witness: the nonnegativity bound applied to the fallback result
for "score: 150". -/
theorem claim_C2_witness : (0 : Int) ≤ 150 :=
  claim_C2.1 "score: 150" 150 "score: 150" rfl

/-- C3: the code contradicts the claim — resuming the parked workflow
via modify with modified_output "X" and feedback "F" returns the
feedback text "F" as final_result (the `human_review` node overwrites
`pending_output` with `human_feedback`), and with no feedback the run
falls back to pending and returns the original draft "D"; the claimed
"X" is never delivered on the workflow path. -/
theorem claim_C3 :
    (modify_request pendingApproval parkedCheckpoint (some "F") (some "X")).1 =
      .ok { success := true, status := "modified", final_result := some "F",
            output_type := some "none", feedback := none }
    ∧ (resume_workflow_with_approval parkedCheckpoint "modified" none
        (some "X")).final_result = "D" := by
  exact ⟨rfl, rfl⟩

/-- C5: cancelling a pending execution marks the signal and sets status
`cancelling`; the work unit's first cancellation check then finalises the
terminal status `cancelled` with `result` and `error_message` still
unset; cancelling a completed execution fails with HTTP 400 and changes
nothing. -/
theorem claim_C5 :
    (∀ (e : BackgroundExecution) (cset : List Nat),
      e.status = "pending" →
      cancel_background_execution e cset =
        (.ok "Cancellation requested",
         { e with
         status := "cancelling"
         progress_message := some "キャンセル処理中..." },
         mark_cancelled e.id cset)
      ∧ background_cancel_check
          { e with
            status := "cancelling"
            progress_message := some "キャンセル処理中..." }
          (mark_cancelled e.id cset) =
        some ({ e with
                status := "cancelled"
                progress_message := some "キャンセルされました"
                completed_at_set := true },
              clear_cancelled e.id (mark_cancelled e.id cset))
      ∧ ExecutionStatus.TERMINAL.contains "cancelled" = true)
    ∧ (∀ (e : BackgroundExecution) (cset : List Nat),
      e.status = "completed" →
      cancel_background_execution e cset =
        (.error { status_code := 400,
                  detail := "Cannot cancel execution with status: completed" },
         e, cset)) := by
  constructor
  · intro e cset hst
    refine ⟨?_, ?_, by decide⟩
    · simp [cancel_background_execution, hst, ExecutionStatus.TERMINAL,
        ExecutionStatus.COMPLETED, ExecutionStatus.FAILED, ExecutionStatus.CANCELLED,
        ExecutionStatus.CANCELLING]
    · have hmem : is_cancelled e.id (mark_cancelled e.id cset) = true := by
        simp only [is_cancelled, mark_cancelled]
        by_cases hc : e.id ∈ cset
        · simp [hc]
        · simp [hc]
      simp [background_cancel_check, hmem, ExecutionStatus.CANCELLED]
  · intro e cset hst
    simp [cancel_background_execution, hst, ExecutionStatus.TERMINAL,
      ExecutionStatus.COMPLETED]

/-- C5 witness: the pending execution with id 7, and the same execution
marked completed, under an empty cancellation set. -/
theorem claim_C5_witness :
    (cancel_background_execution pendingExecution [] =
      (.ok "Cancellation requested",
       { pendingExecution with
         status := "cancelling"
         progress_message := some "キャンセル処理中..." },
       mark_cancelled pendingExecution.id [])
     ∧ background_cancel_check
         { pendingExecution with
           status := "cancelling"
           progress_message := some "キャンセル処理中..." }
         (mark_cancelled pendingExecution.id []) =
       some ({ pendingExecution with
               status := "cancelled"
               progress_message := some "キャンセルされました"
               completed_at_set := true },
             clear_cancelled pendingExecution.id (mark_cancelled pendingExecution.id []))
     ∧ ExecutionStatus.TERMINAL.contains "cancelled" = true)
    ∧ cancel_background_execution { pendingExecution with status := "completed" } [] =
      (.error { status_code := 400,
                detail := "Cannot cancel execution with status: completed" },
       { pendingExecution with status := "completed" }, []) :=
  ⟨claim_C5.1 pendingExecution [] rfl,
   claim_C5.2 { pendingExecution with status := "completed" } [] rfl⟩

/-- C7: the Generator retries only on rate-limit errors within its fixed
budget of 3 attempts — a non-throttling error on the first attempt (or
after throttled ones) propagates immediately, three throttling errors
exhaust the attempts and re-raise the last one, and a success after a
throttled attempt returns the draft with the incremented revision
count. -/
theorem claim_C7 :
    (∀ (s : DirectorState) (llm : Nat → Except PyExc String) (e : PyExc),
      llm 0 = .error e → isThrottling e = false →
      generator_node s llm = .error e)
    ∧ (∀ (s : DirectorState) (llm : Nat → Except PyExc String) (e0 e1 : PyExc),
      llm 0 = .error e0 → isThrottling e0 = true →
      llm 1 = .error e1 → isThrottling e1 = false →
      generator_node s llm = .error e1)
    ∧ (∀ (s : DirectorState) (llm : Nat → Except PyExc String) (e0 e1 e2 : PyExc),
      llm 0 = .error e0 → llm 1 = .error e1 → llm 2 = .error e2 →
      isThrottling e0 = true → isThrottling e1 = true → isThrottling e2 = true →
      generator_node s llm = .error e2)
    ∧ (∀ (s : DirectorState) (llm : Nat → Except PyExc String) (e0 : PyExc) (d : String),
      llm 0 = .error e0 → isThrottling e0 = true → llm 1 = .ok d →
      generator_node s llm = .ok { draft := d, revision_count := s.revision_count + 1 }) := by
  refine ⟨?_, ?_, ?_, ?_⟩
  · intro s llm e h0 hT
    simp [generator_node, generator_retry, h0, hT]
  · intro s llm e0 e1 h0 hT0 h1 hT1
    simp [generator_node, generator_retry, h0, hT0, h1, hT1]
  · intro s llm e0 e1 e2 h0 h1 h2 hT0 hT1 hT2
    simp [generator_node, generator_retry, h0, h1, h2, hT0, hT1, hT2]
  · intro s llm e0 d h0 hT0 h1
    simp [generator_node, generator_retry, h0, hT0, h1]

/-- C7 witness: a non-throttling first-attempt error propagates; three
throttling errors re-raise the last; success after a throttle returns the
draft. -/
theorem claim_C7_witness :
    generator_node witnessStart (fun _ => .error (.other "boom")) = .error (.other "boom")
    ∧ generator_node witnessStart
        (fun n => .error (.other ("ThrottlingException " ++ toString n))) =
      .error (.other "ThrottlingException 2")
    ∧ generator_node witnessStart
        (fun n => if n == 0 then .error (.other "Too many requests") else .ok "D") =
      .ok { draft := "D", revision_count := 1 } :=
  ⟨claim_C7.1 witnessStart (fun _ => .error (.other "boom")) (.other "boom") rfl (by decide),
   claim_C7.2.2.1 witnessStart (fun n => .error (.other ("ThrottlingException " ++ toString n)))
     (.other "ThrottlingException 0") (.other "ThrottlingException 1")
     (.other "ThrottlingException 2") rfl rfl rfl (by decide) (by decide) (by decide),
   claim_C7.2.2.2 witnessStart
     (fun n => if n == 0 then .error (.other "Too many requests") else .ok "D")
     (.other "Too many requests") "D" rfl (by decide) rfl⟩

/-- C8: `loop_count` increments by exactly 1 on every Researcher
invocation; the router exits to the Writer exactly when sufficiency is
signalled or the loop count has reached 3; and a never-sufficient run
stops at `loop_count = 3` with the Writer still producing an answer from
the three accumulated evidence items. -/
theorem claim_C8 :
    (∀ (s : ResearchState) (llm : Except PyExc String) (search : Json → List SearchResult),
      (researcher_node s llm search).loop_count = s.loop_count + 1)
    ∧ (∀ s : ResearchState,
      research_should_continue s = "writer" ↔
        (s.is_sufficient = true ∨ MAX_LOOPS ≤ s.loop_count))
    ∧ (c8Run.loop_count = 3 ∧ c8Run.is_sufficient = false ∧ c8Run.final_answer = "ANS"
        ∧ c8Run.gathered_info.length = 3) := by
  refine ⟨?_, ?_, rfl, rfl, rfl, rfl⟩
  · intro s llm search
    unfold researcher_node
    rcases hp : researcher_parse llm with e | ⟨isS, nq⟩
    · rfl
    · dsimp only
      split
      · rfl
      · split <;> rfl
  · intro s
    by_cases h1 : s.is_sufficient <;> by_cases h2 : MAX_LOOPS ≤ s.loop_count <;>
      simp [research_should_continue, h1, h2]

/-- C9 counterexample: the response "null" parses as JSON `null`, and
`data.get` on `None` raises an AttributeError that the except clause does
not catch — the parser is not total. -/
theorem claim_C9_counterexample :
    parse_evaluation_response "null" =
      .error (.attributeError "\x27NoneType\x27 object has no attribute \x27get\x27") := rfl

set_option maxRecDepth 8192 in
/-- C9 (amended): `parse_evaluation_response` returns a pair exactly when
the strict JSON parse of its candidate text fails (the regex fallback and
defaults cover all such inputs) or succeeds with an object whose `score`
field is absent, a finite number, NaN, a boolean or a string; a parsed
non-object, a `null`/array/object score, or an infinite float score
(e.g. the overflowing literal `1e400`, whose `int()` raises an uncaught
OverflowError) raises. -/
theorem claim_C9 :
    (∀ text : String, exceptOk (parse_evaluation_response text) = parseTotalDomain text)
    ∧ parse_evaluation_response "\x7b\"score\": 1e400\x7d" =
        .error (.overflowError "cannot convert float infinity to integer") := by
  refine ⟨?_, rfl⟩
  intro text
  unfold parse_evaluation_response parseTotalDomain
  cases hj : json_loads (jsonCandidate text) with
  | error e =>
    dsimp only
    rw [json_loads_error_caught _ e hj]
    rfl
  | ok data =>
    cases data with
    | obj kvs =>
      dsimp only
      cases hg : pyDictGet kvs "score" with
      | none => rfl
      | some v =>
        cases v with
        | null => rfl
        | bool b => rfl
        | num t f i => rfl
        | inf neg => rfl
        | nan => rfl
        | arr xs => rfl
        | obj kvs2 => rfl
        | str s =>
          dsimp only [pyInt, scoreFieldCovered]
          cases hi : pyIntOfString s with
          | ok n => rfl
          | error e2 =>
            dsimp only
            rw [pyIntOfString_error_caught _ e2 hi]
            rfl
    | null => rfl
    | bool b => rfl
    | num t f i => rfl
    | inf neg => rfl
    | nan => rfl
    | str s => rfl
    | arr xs => rfl

end CrewCrew
